import Mathlib

/-!
Shallow embedding of the agent command and telemetry channel of the
nanovps-server repository, together with theorems checking the
natural-language specification against the code.

Modules embedded (from src/):
* modules/agent-channel/command.service.ts        (connection registry, command dispatch)
* modules/agent-channel/agent-channel.controller.ts (websocket channel handler)
* modules/agent-channel/report-cache.service.ts   (telemetry hot cache and throttle)
* instance service (retryPendingInstances and friends, stored in db/schema/images.ts)
* modules/nat-ports (persisted network-forward rules)

JavaScript Map and Redis string keys are modelled as insertion-ordered
association lists; JavaScript numbers used as millisecond timestamps are
modelled as Int.
-/

/-! ### Insertion-ordered maps (JavaScript Map / Redis key set semantics) -/

/-- Lookup in an insertion-ordered association list (Map.get / redis.get). -/
def jsMapGet {κ α : Type} [DecidableEq κ] : List (κ × α) → κ → Option α
  | [], _ => none
  | (k', v) :: rest, k => if k' = k then some v else jsMapGet rest k

/-- Map.set / redis.set: update the value in place when the key exists,
otherwise append the new entry at the end (insertion order preserved). -/
def jsMapSet {κ α : Type} [DecidableEq κ] : List (κ × α) → κ → α → List (κ × α)
  | [], k, v => [(k, v)]
  | (k', v') :: rest, k, v =>
    if k' = k then (k, v) :: rest else (k', v') :: jsMapSet rest k v

/-- Map.delete: remove the entry for the key. -/
def jsMapDel {κ α : Type} [DecidableEq κ] : List (κ × α) → κ → List (κ × α)
  | [], _ => []
  | (k', v') :: rest, k =>
    if k' = k then jsMapDel rest k else (k', v') :: jsMapDel rest k

/-! ### command.service.ts -/

/-- Data carried by an agent response to a container create command
(the agent returns the id and name of the created container). -/
structure ResponseData where
  id : Option String
  name : Option String
deriving DecidableEq

/-- The response frame sent by the agent:
type response, refId, success, optional message and data. -/
structure CommandResponse where
  refId : String
  success : Bool
  message : Option String
  data : Option ResponseData
deriving DecidableEq

/-- One entry of the pendingResponses map.  The source entry stores a
resolver, a rejecter and the timeout timer handle; hasTimer mirrors the
timer field tested by unregisterNodeConnection.  The source entry does not
record which node the command was sent to; targetNode is a ghost field
recording the nodeId argument of the sendCommand call that created the
entry, used only to state properties, never read by the embedded code. -/
structure PendingEntry where
  targetNode : Nat
  hasTimer : Bool
deriving DecidableEq

/-- Outcome delivered to a caller of sendCommand.  The source always
resolves with a record of shape success/data/message; the constructors
keep track of which code path produced it. -/
inductive CmdOutcome where
  /-- A matching response frame arrived and was resolved to the caller. -/
  | response (success : Bool) (data : Option ResponseData) (message : Option String)
  /-- The 60 second deadline timer fired first. -/
  | timedOut
  /-- The pending entry was rejected because a node connection was
  unregistered while the command was outstanding. -/
  | connectionLost
  /-- sendCommand returned immediately because the node has no live channel. -/
  | notConnected
deriving DecidableEq

/-- State of command.service.ts: the nodeConnections map (nodeId to
websocket handle, the handle modelled by the ws id string), the
pendingResponses map keyed by correlation id, plus two ghost logs used
only in specifications: outcomes delivered to callers, and command frames
written to a channel (correlation id, nodeId). -/
structure CmdState where
  nodeConnections : List (Nat × String)
  pendingResponses : List (String × PendingEntry)
  delivered : List (String × CmdOutcome)
  sentFrames : List (String × Nat)
deriving DecidableEq

/-- registerNodeConnection: nodeConnections.set(nodeId, ws). -/
def registerNodeConnection (nodeId : Nat) (ws : String) (st : CmdState) : CmdState :=
  { st with nodeConnections := jsMapSet st.nodeConnections nodeId ws }

/-- unregisterNodeConnection: delete the node from nodeConnections, then
loop over every entry of pendingResponses and, whenever the entry has a
timer (always the case for entries created by sendCommand), clear the
timer, reject the promise with a connection-lost error and delete the
entry.  The loop has no filter on the node id: it visits the whole map. -/
def unregisterNodeConnection (nodeId : Nat) (st : CmdState) : CmdState :=
  { st with
    nodeConnections := jsMapDel st.nodeConnections nodeId,
    pendingResponses := st.pendingResponses.filter (fun e => !e.2.hasTimer),
    delivered := st.delivered ++
      (st.pendingResponses.filter (fun e => e.2.hasTimer)).map
        (fun e => (e.1, CmdOutcome.connectionLost)) }

/-- isNodeConnected: nodeConnections.has(nodeId). -/
def isNodeConnected (nodeId : Nat) (st : CmdState) : Bool :=
  (jsMapGet st.nodeConnections nodeId).isSome

/-- handleCommandResponse: look up the refId in pendingResponses; if
absent, log and drop; otherwise clear the timer, delete the entry and
resolve the caller with the response. -/
def handleCommandResponse (resp : CommandResponse) (st : CmdState) : CmdState :=
  match jsMapGet st.pendingResponses resp.refId with
  | none => st
  | some _ =>
    { st with
      pendingResponses := jsMapDel st.pendingResponses resp.refId,
      delivered := st.delivered ++
        [(resp.refId, CmdOutcome.response resp.success resp.data resp.message)] }

/-- The setTimeout callback installed by sendCommand for a correlation id:
delete the entry and resolve the caller with a timeout failure.  Every
path that removes a pending entry first calls clearTimeout, so the timer
is live exactly while the entry is still in the map; the callback firing
is therefore modelled as guarded by the entry still being present. -/
def timerFires (cmdId : String) (st : CmdState) : CmdState :=
  match jsMapGet st.pendingResponses cmdId with
  | none => st
  | some _ =>
    { st with
      pendingResponses := jsMapDel st.pendingResponses cmdId,
      delivered := st.delivered ++ [(cmdId, CmdOutcome.timedOut)] }

/-- sendCommand: if the node has no registered channel, resolve
immediately with a not-connected failure, touching nothing; otherwise
store a pending entry under a fresh correlation id (freshId models the
randomUUID result, generated only on this path), arm the deadline timer
and write the command frame to the channel.  Returns the new state and,
when the call returned immediately, the immediate outcome. -/
def sendCommand (nodeId : Nat) (freshId : String) (st : CmdState) :
    CmdState × Option CmdOutcome :=
  match jsMapGet st.nodeConnections nodeId with
  | none => (st, some CmdOutcome.notConnected)
  | some _ =>
    ({ st with
       pendingResponses :=
         jsMapSet st.pendingResponses freshId { targetNode := nodeId, hasTimer := true },
       sentFrames := st.sentFrames ++ [(freshId, nodeId)] }, none)

/-- Outcomes delivered so far for one correlation id (ghost projection). -/
def outcomesFor (st : CmdState) (cmdId : String) : List CmdOutcome :=
  (st.delivered.filter (fun e => e.1 == cmdId)).map (fun e => e.2)

/-! ### report-cache.service.ts data shapes -/

/-- CPU block of a host snapshot. -/
structure CpuData where
  cores : Int
  usagePercent : Int
deriving DecidableEq

/-- Memory block of a host or container snapshot. -/
structure MemoryData where
  total : Int
  used : Int
  usagePercent : Int
deriving DecidableEq

/-- Network counters block. -/
structure NetworkData where
  rxRate : Int
  txRate : Int
  rxTotal : Int
  txTotal : Int
deriving DecidableEq

/-- Per filesystem disk usage entry. -/
structure DiskData where
  fs : String
  fsType : String
  size : Int
  used : Int
  usePercent : Int
deriving DecidableEq

/-- Host snapshot of a report frame. -/
structure HostData where
  uptime : Int
  cpu : CpuData
  memory : MemoryData
  network : NetworkData
  disks : List DiskData
deriving DecidableEq

/-- Container memory block (usage, limit, usagePercent). -/
structure ContainerMemoryData where
  usage : Int
  limit : Int
  usagePercent : Int
deriving DecidableEq

/-- Per container snapshot of a report frame. -/
structure ContainerData where
  id : String
  name : String
  cpuPercent : Int
  memory : ContainerMemoryData
  network : NetworkData
deriving DecidableEq

/-- Payload of a report frame (the data field of an AgentReport). -/
structure ReportData where
  agentId : String
  timestamp : Int
  host : HostData
  containers : List ContainerData
deriving DecidableEq

/-- One durable cold-store record: the node_reports row (host snapshot as
JSONB) together with its dependent per container rows. -/
structure ColdRecord where
  nodeId : Nat
  agentId : String
  timestamp : Int
  hostSnapshot : HostData
  containers : List ContainerData
deriving DecidableEq

/-- DB_SAVE_INTERVAL: ten minutes in milliseconds. -/
def DB_SAVE_INTERVAL : Int := 10 * 60 * 1000

/-- State of the telemetry path: the Redis hot cache keys
(report:host:latest:agentId, report:container:latest:agentId:containerId,
report:containers:list:agentId, report:lastDbTime:agentId) and the
durable cold store modelled as an append-only list of records. -/
structure TelemetryState where
  hostLatest : List (String × (Int × HostData))
  containerLatest : List ((String × String) × (Int × ContainerData))
  containersList : List (String × List String)
  lastDbTime : List (String × Int)
  coldStore : List ColdRecord
deriving DecidableEq

/-- Telemetry state with every key absent and an empty cold store. -/
def emptyTelemetry : TelemetryState :=
  { hostLatest := [], containerLatest := [], containersList := [],
    lastDbTime := [], coldStore := [] }

/-- saveLatestReport: store the host snapshot under the agent id, store
each container snapshot under (agentId, container.id) in list order, then
store the list of container ids (each write also refreshes the one hour
expiry, which is not modelled further). -/
def saveLatestReport (agentId : String) (r : ReportData) (st : TelemetryState) :
    TelemetryState :=
  { st with
    hostLatest := jsMapSet st.hostLatest agentId (r.timestamp, r.host),
    containerLatest :=
      r.containers.foldl (fun m c => jsMapSet m (agentId, c.id) (r.timestamp, c))
        st.containerLatest,
    containersList := jsMapSet st.containersList agentId (r.containers.map (fun c => c.id)) }

/-- getLatestReport: read the host snapshot; if absent return null.
Otherwise read the container id list, collect the stored snapshot of each
listed container that is present (getAllContainersLatest), and reassemble
a report whose timestamp is the stored host timestamp. -/
def getLatestReport (agentId : String) (st : TelemetryState) : Option ReportData :=
  match jsMapGet st.hostLatest agentId with
  | none => none
  | some (ts, host) =>
    let ids := (jsMapGet st.containersList agentId).getD []
    let containers :=
      ids.filterMap (fun cid => (jsMapGet st.containerLatest (agentId, cid)).map (fun e => e.2))
    some { agentId := agentId, timestamp := ts, host := host, containers := containers }

/-- shouldSaveToDb: persist when no last-persisted timestamp is recorded
for the agent, or when the elapsed time since it reaches DB_SAVE_INTERVAL. -/
def shouldSaveToDb (lastDbTime : List (String × Int)) (agentId : String)
    (currentTimestamp : Int) : Bool :=
  match jsMapGet lastDbTime agentId with
  | none => true
  | some last => decide (DB_SAVE_INTERVAL ≤ currentTimestamp - last)

/-- setLastDbTime: record the new last-persisted timestamp for the agent. -/
def setLastDbTime (agentId : String) (ts : Int) (st : TelemetryState) : TelemetryState :=
  { st with lastDbTime := jsMapSet st.lastDbTime agentId ts }

/-- Cold-store record written for a report received from a node. -/
def mkColdRecord (nodeId : Nat) (r : ReportData) : ColdRecord :=
  { nodeId := nodeId, agentId := r.agentId, timestamp := r.timestamp,
    hostSnapshot := r.host, containers := r.containers }

/-- The report branch of the message handler of
agent-channel.controller.ts: unconditionally update the hot cache, then,
when the throttle allows, write one cold-store record and record the new
last-persisted timestamp. -/
def processReport (nodeId : Nat) (r : ReportData) (st : TelemetryState) : TelemetryState :=
  let st1 := saveLatestReport r.agentId r st
  if shouldSaveToDb st1.lastDbTime r.agentId r.timestamp then
    setLastDbTime r.agentId r.timestamp
      { st1 with coldStore := st1.coldStore ++ [mkColdRecord nodeId r] }
  else
    st1

/-! ### agent-channel.controller.ts -/

/-- A node row as cached by node-cache.service.ts: id, display name and
the secret agent token presented at connection time. -/
structure Node where
  id : Nat
  name : String
  agentToken : String
deriving DecidableEq

/-- Result of the beforeHandle authentication hook. -/
inductive AuthResult where
  | rejected (error : String)
  | accepted
deriving DecidableEq

/-- beforeHandle: read the key query parameter; a missing or empty value
is falsy in JavaScript and rejected as a missing token; otherwise the
token must match the agentToken of some cached node, else the connection
is rejected as an invalid token.  On a match the hook passes and the
connection proceeds to the open handler. -/
def beforeHandle (nodes : List Node) (key : Option String) : AuthResult :=
  let agentToken := key.getD ""
  if agentToken = "" then AuthResult.rejected "Missing Agent Token"
  else
    match nodes.find? (fun n => n.agentToken == agentToken) with
    | none => AuthResult.rejected "Invalid Agent Token"
    | some _ => AuthResult.accepted

/-- An inbound websocket frame as demultiplexed by the message handler:
a frame whose type field is response, a frame whose type field is report
(with possibly absent data), or any other frame type. -/
inductive InboundFrame where
  | response (r : CommandResponse)
  | report (d : Option ReportData)
  | unknown (ty : String)

/-- Combined server state: the wsNodeMap of the controller (ws id to the
node resolved at open time), the command service state and the telemetry
state. -/
structure ServerState where
  wsNodeMap : List (String × Node)
  cmd : CmdState
  telemetry : TelemetryState
deriving DecidableEq

/-- The open handler: resolve the node by the presented token again; when
found, record it in wsNodeMap and register the channel in the command
service (the asynchronous reconciliation kick-off is modelled separately
by onNodeOpen).  When no node matches, nothing is registered. -/
def wsOpen (nodes : List Node) (wsId : String) (key : Option String)
    (st : ServerState) : ServerState :=
  match nodes.find? (fun n => n.agentToken == key.getD "") with
  | none => st
  | some node =>
    { st with
      wsNodeMap := jsMapSet st.wsNodeMap wsId node,
      cmd := registerNodeConnection node.id wsId st.cmd }

/-- The close handler: look the closing socket up in wsNodeMap; when
found, unregister that node id from the command service and drop the
wsNodeMap entry. -/
def wsClose (wsId : String) (st : ServerState) : ServerState :=
  match jsMapGet st.wsNodeMap wsId with
  | none => st
  | some node =>
    { st with
      wsNodeMap := jsMapDel st.wsNodeMap wsId,
      cmd := unregisterNodeConnection node.id st.cmd }

/-- The message handler: drop the frame when the socket is unknown;
forward response frames to handleCommandResponse; process report frames
with data through the telemetry path; log and drop everything else. -/
def wsMessage (wsId : String) (frame : InboundFrame) (st : ServerState) : ServerState :=
  match jsMapGet st.wsNodeMap wsId with
  | none => st
  | some node =>
    match frame with
    | InboundFrame.response r => { st with cmd := handleCommandResponse r st.cmd }
    | InboundFrame.report (some d) =>
      { st with telemetry := processReport node.id d st.telemetry }
    | InboundFrame.report none => st
    | InboundFrame.unknown _ => st

/-! ### instance service (retryPendingInstances, stored in db/schema/images.ts) -/

/-- A persisted instance (workload) row, restricted to the fields the
reconciliation path reads and writes.  Status codes: 0 CREATING,
1 RUNNING, 2 STOPPED, 3 PAUSED, 4 ERROR, 5 DESTROYING, 6 DESTROYED. -/
structure InstanceRec where
  id : Nat
  nodeId : Nat
  status : Nat
  containerId : Option String
  internalIp : Option String
deriving DecidableEq

/-- A persisted NAT port-forward rule (nat_port_mappings row, restricted
to the fields the reconciliation path touches). -/
structure NatRule where
  instanceId : Nat
  nodeId : Nat
  protocol : String
  internalPort : Nat
  externalPort : Nat
deriving DecidableEq

/-- The relational state the reconciliation driver reads and writes:
instance rows and network-forward rule rows. -/
structure ReconDb where
  instances : List InstanceRec
  natRules : List NatRule
deriving DecidableEq

/-- Outcome of one container create command sent during reconciliation,
as observed by the awaiting caller of sendContainerCreateCommand. -/
inductive CreateOutcome where
  /-- The agent responded; success flag plus the created container id
  carried in the response data, if any. -/
  | response (success : Bool) (containerId : Option String) (message : Option String)
  /-- The pending command was rejected because the node connection was
  unregistered (the caller sees success false, connection lost message). -/
  | connectionLost
  /-- The deadline timer fired (the caller sees success false, timeout message). -/
  | timedOut
deriving DecidableEq

/-- A command issued to the agent channel during reconciliation. -/
inductive IssuedCmd where
  | createContainer (instanceId : Nat)
  | portForward (nodeId : Nat) (protocol : String) (port : Nat) (targetIp : String)
      (targetPort : Nat)
deriving DecidableEq

/-- Whether an issued command is a network-forward command. -/
def IssuedCmd.isForward : IssuedCmd → Bool
  | IssuedCmd.portForward _ _ _ _ _ => true
  | _ => false

/-- calculateSSHPort: 10000 plus the instance id. -/
def calculateSSHPort (instanceId : Nat) : Nat := 10000 + instanceId

/-- calculateIPv4: 10.89.0.(instance id + 1). -/
def calculateIPv4 (instanceId : Nat) : String :=
  "10.89.0." ++ toString (instanceId + 1)

/-- SQL UPDATE instances SET ... WHERE id = i, with an id-preserving
row transformation. -/
def updInst (insts : List InstanceRec) (i : Nat) (f : InstanceRec → InstanceRec) :
    List InstanceRec :=
  insts.map (fun j => if j.id == i then f j else j)

/-- Status of the instance row with a given id, when present. -/
def instStatus (db : ReconDb) (i : Nat) : Option Nat :=
  (db.instances.find? (fun j => j.id == i)).map (fun j => j.status)

/-- triggerContainerCreationForInstance: derive the creation parameters of
the instance (parameter derivation is modelled as total; a derivation
failure such as a missing image row would also end in setInstanceError
without sending a command), send one container create command and await
its outcome
(outcomes gives the outcome of the command for each instance id).  When
the result has success set and carries a container id, updateContainerInfo
sets the container id, the internal ip and status 1 (RUNNING), then an SSH
forward rule is inserted if the instance has none and a port-forward
command for the SSH port is sent.  On any other result (success false,
success without container id, timeout, connection lost) setInstanceError
sets status 4 (ERROR).  Returns the updated rows and the commands issued. -/
def triggerContainerCreationForInstance (outcomes : Nat → CreateOutcome)
    (nodeId instId : Nat) (db : ReconDb) : ReconDb × List IssuedCmd :=
  match db.instances.find? (fun j => j.id == instId) with
  | none => (db, [])
  | some inst =>
    match outcomes instId with
    | CreateOutcome.response true (some cid) _ =>
      let ip := inst.internalIp.getD (calculateIPv4 instId)
      ({ instances :=
           updInst db.instances instId
             (fun j => { j with status := 1, containerId := some cid, internalIp := some ip }),
         natRules :=
           if (db.natRules.filter (fun r => r.instanceId == instId)).length == 0 then
             db.natRules ++
               [{ instanceId := instId, nodeId := nodeId, protocol := "tcp",
                  internalPort := 22, externalPort := calculateSSHPort instId }]
           else db.natRules },
       [IssuedCmd.createContainer instId,
        IssuedCmd.portForward nodeId "tcp" (calculateSSHPort instId) ip 22])
    | _ =>
      ({ instances := updInst db.instances instId (fun j => { j with status := 4 }),
         natRules := db.natRules },
       [IssuedCmd.createContainer instId])

/-- One step of the retry loop: run the trigger for one pending instance
and accumulate the commands it issued. -/
def retryStep (outcomes : Nat → CreateOutcome) (nodeId : Nat)
    (acc : ReconDb × List IssuedCmd) (inst : InstanceRec) : ReconDb × List IssuedCmd :=
  let r := triggerContainerCreationForInstance outcomes nodeId inst.id acc.1
  (r.1, acc.2 ++ r.2)

/-- retryPendingInstances: select the instances of the node whose status
is 0 (CREATING) or 4 (ERROR), then run the creation trigger once for each
of them. -/
def retryPendingInstances (outcomes : Nat → CreateOutcome) (nodeId : Nat)
    (db : ReconDb) : ReconDb × List IssuedCmd :=
  (db.instances.filter
      (fun i => i.nodeId == nodeId && (i.status == 0 || i.status == 4))).foldl
    (retryStep outcomes nodeId) (db, [])

/-- Everything the open handler of agent-channel.controller.ts triggers
once the node is registered: retryPendingInstances is the only
reconciliation work kicked off on a node transitioning to open. -/
def onNodeOpen (outcomes : Nat → CreateOutcome) (nodeId : Nat) (db : ReconDb) :
    ReconDb × List IssuedCmd :=
  retryPendingInstances outcomes nodeId db

/-- Status an instance row ends with after its creation trigger ran, as a
function of the outcome of its create command. -/
def resultStatus : CreateOutcome → Nat
  | CreateOutcome.response true (some _) _ => 1
  | _ => 4

/-! ### Concrete fixtures used by closed evaluation and witness theorems -/

/-- Command state with no connections, no pending commands. -/
def emptyCmdState : CmdState :=
  { nodeConnections := [], pendingResponses := [], delivered := [], sentFrames := [] }

/-- Server state with nothing registered. -/
def emptyServerState : ServerState :=
  { wsNodeMap := [], cmd := emptyCmdState, telemetry := emptyTelemetry }

/-- Command state with nodes 1 and 2 connected and one outstanding command
to each: c1 was sent to node 1, c2 to node 2. -/
def twoNodeCmdState : CmdState :=
  { nodeConnections := [(1, "ws1"), (2, "ws2")],
    pendingResponses :=
      [("c1", { targetNode := 1, hasTimer := true }),
       ("c2", { targetNode := 2, hasTimer := true })],
    delivered := [], sentFrames := [] }

/-- Command state with node 1 connected and one outstanding command c1. -/
def onePendingCmdState : CmdState :=
  { nodeConnections := [(1, "ws1")],
    pendingResponses := [("c1", { targetNode := 1, hasTimer := true })],
    delivered := [], sentFrames := [] }

/-- A successful response frame for correlation id c1. -/
def respC1 : CommandResponse :=
  { refId := "c1", success := true, message := none, data := none }

/-- A sample node with id 1 and token tok1. -/
def node1 : Node := { id := 1, name := "n1", agentToken := "tok1" }

/-- A host snapshot used by concrete telemetry scenarios. -/
def sampleHost : HostData :=
  { uptime := 100,
    cpu := { cores := 4, usagePercent := 25 },
    memory := { total := 2048, used := 512, usagePercent := 25 },
    network := { rxRate := 1, txRate := 2, rxTotal := 3, txTotal := 4 },
    disks := [{ fs := "/dev/sda1", fsType := "ext4", size := 100, used := 40, usePercent := 40 }] }

/-- A report frame from agent A at a given timestamp, with no containers. -/
def throttleReport (ts : Int) : ReportData :=
  { agentId := "A", timestamp := ts, host := sampleHost, containers := [] }

/-- Telemetry state after the report of agent A at t = 0. -/
def throttleS1 : TelemetryState := processReport 7 (throttleReport 0) emptyTelemetry

/-- State after the further report at t = 4 min. -/
def throttleS2 : TelemetryState := processReport 7 (throttleReport 240000) throttleS1

/-- State after the further report at t = 9 min. -/
def throttleS3 : TelemetryState := processReport 7 (throttleReport 540000) throttleS2

/-- State after the further report at t = 11 min. -/
def throttleS4 : TelemetryState := processReport 7 (throttleReport 660000) throttleS3

/-- Two container snapshots with distinct ids. -/
def containerA : ContainerData :=
  { id := "ca", name := "alpha", cpuPercent := 10,
    memory := { usage := 10, limit := 100, usagePercent := 10 },
    network := { rxRate := 5, txRate := 6, rxTotal := 7, txTotal := 8 } }

/-- Second container snapshot, distinct id from containerA. -/
def containerB : ContainerData :=
  { id := "cb", name := "beta", cpuPercent := 20,
    memory := { usage := 20, limit := 200, usagePercent := 10 },
    network := { rxRate := 9, txRate := 10, rxTotal := 11, txTotal := 12 } }

/-- A report with two containers of pairwise-distinct ids. -/
def roundtripReport : ReportData :=
  { agentId := "B", timestamp := 5000, host := sampleHost,
    containers := [containerA, containerB] }

/-- A database with a single CREATING instance on node 1. -/
def creatingDb : ReconDb :=
  { instances := [{ id := 1, nodeId := 1, status := 0, containerId := none, internalIp := none }],
    natRules := [] }

/-- An outcome assignment where every create command is lost to a
disconnection. -/
def allConnLost : Nat → CreateOutcome := fun _ => CreateOutcome.connectionLost

/-- An outcome assignment where every create command succeeds and returns
container id cX. -/
def allSucceed : Nat → CreateOutcome :=
  fun _ => CreateOutcome.response true (some "cX") none

/-- The CREATING instance row of creatingDb. -/
def creatingInst : InstanceRec :=
  { id := 1, nodeId := 1, status := 0, containerId := none, internalIp := none }

/-- A database with one RUNNING instance on node 1 that owns one persisted
network-forward rule: nothing on this node is in CREATING or ERROR state. -/
def runningDbWithRule : ReconDb :=
  { instances := [{ id := 1, nodeId := 1, status := 1, containerId := some "cid1",
                    internalIp := some "10.89.0.2" }],
    natRules := [{ instanceId := 1, nodeId := 1, protocol := "tcp",
                   internalPort := 8080, externalPort := 18080 }] }

/-! ### Map lemmas -/

/-- Reading back the key just set yields the value set. -/
theorem jsMapGet_set_self {κ α : Type} [DecidableEq κ] (m : List (κ × α)) (k : κ) (v : α) :
    jsMapGet (jsMapSet m k v) k = some v := by
  induction m with
  | nil => simp [jsMapSet, jsMapGet]
  | cons e rest ih =>
    obtain ⟨k', v'⟩ := e
    by_cases h : k' = k
    · simp [jsMapSet, jsMapGet, h]
    · simp [jsMapSet, jsMapGet, h, ih]

/-- Setting one key does not change reads of a different key. -/
theorem jsMapGet_set_ne {κ α : Type} [DecidableEq κ] (m : List (κ × α)) (k k' : κ) (v : α)
    (h : k' ≠ k) : jsMapGet (jsMapSet m k v) k' = jsMapGet m k' := by
  induction m with
  | nil => simp [jsMapSet, jsMapGet, Ne.symm h]
  | cons e rest ih =>
    obtain ⟨k1, v1⟩ := e
    by_cases h1 : k1 = k
    · subst h1
      simp [jsMapSet, jsMapGet, Ne.symm h]
    · simp only [jsMapSet, if_neg h1, jsMapGet]
      by_cases h2 : k1 = k'
      · simp [h2]
      · simp [h2, ih]

/-- Reading a deleted key yields nothing. -/
theorem jsMapGet_del_self {κ α : Type} [DecidableEq κ] (m : List (κ × α)) (k : κ) :
    jsMapGet (jsMapDel m k) k = none := by
  induction m with
  | nil => simp [jsMapDel, jsMapGet]
  | cons e rest ih =>
    obtain ⟨k', v'⟩ := e
    by_cases h : k' = k
    · simp [jsMapDel, h, ih]
    · simp [jsMapDel, jsMapGet, h, ih]

/-- Deleting one key does not change reads of a different key. -/
theorem jsMapGet_del_ne {κ α : Type} [DecidableEq κ] (m : List (κ × α)) (k k' : κ)
    (h : k' ≠ k) : jsMapGet (jsMapDel m k) k' = jsMapGet m k' := by
  induction m with
  | nil => simp [jsMapDel]
  | cons e rest ih =>
    obtain ⟨k1, v1⟩ := e
    by_cases h1 : k1 = k
    · subst h1
      simp [jsMapDel, jsMapGet, Ne.symm h, ih]
    · simp only [jsMapDel, if_neg h1, jsMapGet]
      by_cases h2 : k1 = k'
      · simp [h2]
      · simp [h2, ih]

/-- After setting the same key twice (possibly through another key in
between with the same value), the read of the first key yields the value. -/
theorem jsMapGet_set_set_self {κ α : Type} [DecidableEq κ] (m : List (κ × α))
    (k1 k2 : κ) (v : α) : jsMapGet (jsMapSet (jsMapSet m k1 v) k2 v) k1 = some v := by
  by_cases h : k2 = k1
  · subst h
    exact jsMapGet_set_self _ _ _
  · rw [jsMapGet_set_ne _ _ _ _ (fun hh => h (Eq.symm hh))]
    exact jsMapGet_set_self _ _ _

/-! ### Command dispatcher lemmas -/

/-- handleCommandResponse is a no-op when the refId has no pending entry. -/
theorem handleCommandResponse_absent (resp : CommandResponse) (st : CmdState)
    (h : jsMapGet st.pendingResponses resp.refId = none) :
    handleCommandResponse resp st = st := by
  unfold handleCommandResponse
  rw [h]

/-- handleCommandResponse on a live entry removes it and delivers the
response outcome. -/
theorem handleCommandResponse_pending (resp : CommandResponse) (st : CmdState)
    (e : PendingEntry) (h : jsMapGet st.pendingResponses resp.refId = some e) :
    handleCommandResponse resp st =
      { st with
        pendingResponses := jsMapDel st.pendingResponses resp.refId,
        delivered := st.delivered ++
          [(resp.refId, CmdOutcome.response resp.success resp.data resp.message)] } := by
  unfold handleCommandResponse
  rw [h]

/-- The deadline callback is a no-op once the entry is gone (its timer was
cleared by whichever path removed the entry). -/
theorem timerFires_absent (cmdId : String) (st : CmdState)
    (h : jsMapGet st.pendingResponses cmdId = none) : timerFires cmdId st = st := by
  unfold timerFires
  rw [h]

/-- The deadline callback on a live entry removes it and delivers the
timeout outcome. -/
theorem timerFires_pending (cmdId : String) (st : CmdState) (e : PendingEntry)
    (h : jsMapGet st.pendingResponses cmdId = some e) :
    timerFires cmdId st =
      { st with
        pendingResponses := jsMapDel st.pendingResponses cmdId,
        delivered := st.delivered ++ [(cmdId, CmdOutcome.timedOut)] } := by
  unfold timerFires
  rw [h]

/-- Appending one delivered outcome for a correlation id extends exactly
the outcome log of that id. -/
theorem outcomes_filter_snoc (l : List (String × CmdOutcome)) (c : String) (o : CmdOutcome) :
    ((l ++ [(c, o)]).filter (fun e => e.1 == c)).map (fun e => e.2) =
      (l.filter (fun e => e.1 == c)).map (fun e => e.2) ++ [o] := by
  simp

/-! ### C1, C5, C7, C8 theorems -/

/-- C1 evaluation: in a state with one outstanding command to node 1 and
one to node 2, unregistering node 1 rejects both commands with a
connection-lost outcome and leaves zero entries pending; the command
targeting node 2 does not stay pending, contradicting the claim that
entries of other nodes are left untouched. -/
theorem unregister_rejects_all_pending_eval :
    (unregisterNodeConnection 1 twoNodeCmdState).pendingResponses = [] ∧
    (unregisterNodeConnection 1 twoNodeCmdState).delivered =
      [("c1", CmdOutcome.connectionLost), ("c2", CmdOutcome.connectionLost)] ∧
    (unregisterNodeConnection 1 twoNodeCmdState).nodeConnections = [(2, "ws2")] := by
  decide

/-- C5: a pending command resolves exactly once however the matching
response and the deadline callback interleave.  When the response is
handled first, exactly one response outcome is appended for the id and
the subsequent deadline callback is a no-op (the entry is gone and the
timer was cleared); when the deadline fires first, exactly one timeout
outcome is appended and the late response is dropped.  In both orders the
pending entry is removed. -/
theorem pending_resolves_exactly_once (st : CmdState) (resp : CommandResponse)
    (e : PendingEntry) (h : jsMapGet st.pendingResponses resp.refId = some e) :
    (outcomesFor (timerFires resp.refId (handleCommandResponse resp st)) resp.refId =
        outcomesFor st resp.refId ++
          [CmdOutcome.response resp.success resp.data resp.message] ∧
      jsMapGet (timerFires resp.refId (handleCommandResponse resp st)).pendingResponses
        resp.refId = none) ∧
    (outcomesFor (handleCommandResponse resp (timerFires resp.refId st)) resp.refId =
        outcomesFor st resp.refId ++ [CmdOutcome.timedOut] ∧
      jsMapGet (handleCommandResponse resp (timerFires resp.refId st)).pendingResponses
        resp.refId = none) := by
  have hresp := handleCommandResponse_pending resp st e h
  have htimer := timerFires_pending resp.refId st e h
  constructor
  · rw [hresp]
    rw [timerFires_absent _ _ (jsMapGet_del_self _ _)]
    refine ⟨?_, jsMapGet_del_self _ _⟩
    unfold outcomesFor
    exact outcomes_filter_snoc _ _ _
  · rw [htimer]
    rw [handleCommandResponse_absent _ _ (jsMapGet_del_self _ _)]
    refine ⟨?_, jsMapGet_del_self _ _⟩
    unfold outcomesFor
    exact outcomes_filter_snoc _ _ _

/-- C5 witness: exactly-once resolution evaluated on a concrete state
with one pending command c1 and a concrete response frame. -/
theorem pending_resolves_exactly_once_witness :
    (outcomesFor (timerFires "c1" (handleCommandResponse respC1 onePendingCmdState)) "c1" =
        outcomesFor onePendingCmdState "c1" ++ [CmdOutcome.response true none none] ∧
      jsMapGet (timerFires "c1"
        (handleCommandResponse respC1 onePendingCmdState)).pendingResponses "c1" = none) ∧
    (outcomesFor (handleCommandResponse respC1 (timerFires "c1" onePendingCmdState)) "c1" =
        outcomesFor onePendingCmdState "c1" ++ [CmdOutcome.timedOut] ∧
      jsMapGet (handleCommandResponse respC1
        (timerFires "c1" onePendingCmdState)).pendingResponses "c1" = none) :=
  pending_resolves_exactly_once onePendingCmdState respC1
    { targetNode := 1, hasTimer := true } (by decide)

/-- C7: a command sent to a node with no registered channel resolves
immediately with the not-connected outcome; the state is returned
untouched, so no pending entry is created, no frame is recorded as sent
and the pending-command table is unchanged (the fresh correlation id is
only ever consumed on the connected path). -/
theorem sendCommand_not_connected (st : CmdState) (nodeId : Nat) (freshId : String)
    (h : jsMapGet st.nodeConnections nodeId = none) :
    sendCommand nodeId freshId st = (st, some CmdOutcome.notConnected) := by
  unfold sendCommand
  rw [h]

/-- C7 witness: sending to node 5 on a state with no connections. -/
theorem sendCommand_not_connected_witness :
    sendCommand 5 "id0" emptyCmdState = (emptyCmdState, some CmdOutcome.notConnected) :=
  sendCommand_not_connected emptyCmdState 5 "id0" (by decide)

/-- C8: an inbound frame whose type is neither response nor report (for
example ping) is dropped by the message handler: the whole server state,
including the connection registry, every pending command, the hot cache
and the cold store, is returned unchanged, and no close is initiated. -/
theorem unknown_frame_is_dropped (st : ServerState) (wsId ty : String) :
    wsMessage wsId (InboundFrame.unknown ty) st = st := by
  unfold wsMessage
  cases jsMapGet st.wsNodeMap wsId <;> rfl

/-! ### C6 and C9 theorems -/

/-- C6: when a second connection ws2 is registered for the same node
while ws1 is still tracked, and then the superseded socket ws1 closes,
the close handler resolves ws1 back to the node and unregisters the node
id, removing the live channel that belongs to ws2: afterwards the node is
reported as not connected and its channel entry is gone even though ws2
was never closed. -/
theorem superseded_close_unregisters_live_channel (nodes : List Node) (key : Option String)
    (node : Node) (st : ServerState) (ws1 ws2 : String)
    (hfind : nodes.find? (fun n => n.agentToken == key.getD "") = some node) :
    isNodeConnected node.id
        (wsClose ws1 (wsOpen nodes ws2 key (wsOpen nodes ws1 key st))).cmd = false ∧
    jsMapGet (wsClose ws1 (wsOpen nodes ws2 key
        (wsOpen nodes ws1 key st))).cmd.nodeConnections node.id = none := by
  unfold wsOpen
  rw [hfind]
  unfold wsClose
  simp only [registerNodeConnection]
  rw [jsMapGet_set_set_self st.wsNodeMap ws1 ws2 node]
  unfold unregisterNodeConnection isNodeConnected
  simp only
  rw [jsMapGet_del_self]
  exact ⟨rfl, rfl⟩

/-- C6 witness: the double-register-then-stale-close scenario evaluated
for node 1 on an initially empty server state. -/
theorem superseded_close_unregisters_live_channel_witness :
    isNodeConnected node1.id
        (wsClose "w1" (wsOpen [node1] "w2" (some "tok1")
          (wsOpen [node1] "w1" (some "tok1") emptyServerState))).cmd = false ∧
    jsMapGet (wsClose "w1" (wsOpen [node1] "w2" (some "tok1")
        (wsOpen [node1] "w1" (some "tok1") emptyServerState))).cmd.nodeConnections
      node1.id = none :=
  superseded_close_unregisters_live_channel [node1] (some "tok1") node1
    emptyServerState "w1" "w2" (by decide)

/-- C9: the authentication gate rejects a connection attempt exactly when
the presented bearer credential is absent (no key parameter, or the empty
string, which is falsy in JavaScript) or matches the agent token of no
cached node; and when the gate accepts, the token matched some node and
the subsequent open handler registers that node in the connection
registry. -/
theorem auth_gate_rejects_iff (nodes : List Node) (key : Option String)
    (st : ServerState) (wsId : String) :
    (beforeHandle nodes key ≠ AuthResult.accepted ↔
      (key = none ∨ key = some "" ∨ ∀ n ∈ nodes, n.agentToken ≠ key.getD "")) ∧
    (beforeHandle nodes key = AuthResult.accepted →
      ∃ n, nodes.find? (fun m => m.agentToken == key.getD "") = some n ∧ n ∈ nodes ∧
        n.agentToken = key.getD "" ∧
        isNodeConnected n.id (wsOpen nodes wsId key st).cmd = true) := by
  unfold beforeHandle
  by_cases hk : key.getD "" = ""
  · rw [if_pos hk]
    constructor
    · constructor
      · intro _
        cases key with
        | none => exact Or.inl rfl
        | some s =>
          refine Or.inr (Or.inl ?_)
          simp only [Option.getD] at hk
          rw [hk]
      · intro _ hcontra
        exact AuthResult.noConfusion hcontra
    · intro hcontra
      exact absurd hcontra (fun hh => AuthResult.noConfusion hh)
  · rw [if_neg hk]
    cases hfind : nodes.find? (fun n => n.agentToken == key.getD "") with
    | none =>
      constructor
      · constructor
        · intro _
          refine Or.inr (Or.inr ?_)
          intro n hn heq
          have := List.find?_eq_none.mp hfind n hn
          simp [heq] at this
        · intro _ hcontra
          exact AuthResult.noConfusion hcontra
      · intro hcontra
        exact absurd hcontra (fun hh => AuthResult.noConfusion hh)
    | some n =>
      have hmem := List.mem_of_find?_eq_some hfind
      have htok : n.agentToken = key.getD "" := by
        have := List.find?_some hfind
        exact eq_of_beq this
      constructor
      · constructor
        · intro hcontra
          exact absurd rfl hcontra
        · intro hcases
          rcases hcases with hnone | hempty | hall
          · rw [hnone] at hk
            exact absurd rfl hk
          · rw [hempty] at hk
            exact absurd rfl hk
          · exact absurd htok (hall n hmem)
      · intro _
        refine ⟨n, rfl, hmem, htok, ?_⟩
        unfold wsOpen
        rw [hfind]
        unfold registerNodeConnection isNodeConnected
        simp only
        rw [jsMapGet_set_self]
        rfl

/-- C9 witness: the gate evaluated with one cached node and the matching
token, instantiating the acceptance branch. -/
theorem auth_gate_rejects_iff_witness :
    (beforeHandle [node1] (some "tok1") ≠ AuthResult.accepted ↔
      (some "tok1" = none ∨ some "tok1" = some "" ∨
        ∀ n ∈ [node1], n.agentToken ≠ (some "tok1").getD "")) ∧
    (beforeHandle [node1] (some "tok1") = AuthResult.accepted →
      ∃ n, [node1].find? (fun m => m.agentToken == (some "tok1").getD "") = some n ∧
        n ∈ [node1] ∧ n.agentToken = (some "tok1").getD "" ∧
        isNodeConnected n.id (wsOpen [node1] "w1" (some "tok1") emptyServerState).cmd = true) :=
  auth_gate_rejects_iff [node1] (some "tok1") emptyServerState "w1"

/-! ### Telemetry lemmas and C4, C10 theorems -/

/-- shouldSaveToDb is true exactly when no last-persisted timestamp is
recorded or the elapsed time reaches the window. -/
theorem shouldSaveToDb_iff (lastMap : List (String × Int)) (agentId : String) (ts : Int) :
    shouldSaveToDb lastMap agentId ts = true ↔
      (jsMapGet lastMap agentId = none ∨
        ∃ last, jsMapGet lastMap agentId = some last ∧ DB_SAVE_INTERVAL ≤ ts - last) := by
  unfold shouldSaveToDb
  cases h : jsMapGet lastMap agentId with
  | none => simp
  | some last => simp

/-- processReport appends one cold-store record exactly when the throttle
allows, and the throttle reads the timestamps recorded before the report. -/
theorem processReport_coldStore (nodeId : Nat) (r : ReportData) (st : TelemetryState) :
    (processReport nodeId r st).coldStore = st.coldStore ++
      (if shouldSaveToDb st.lastDbTime r.agentId r.timestamp
        then [mkColdRecord nodeId r] else []) := by
  unfold processReport setLastDbTime saveLatestReport
  by_cases h : shouldSaveToDb st.lastDbTime r.agentId r.timestamp <;> simp [h]

/-- processReport always refreshes the hot host entry of the agent. -/
theorem processReport_hostLatest (nodeId : Nat) (r : ReportData) (st : TelemetryState) :
    (processReport nodeId r st).hostLatest =
      jsMapSet st.hostLatest r.agentId (r.timestamp, r.host) := by
  unfold processReport setLastDbTime saveLatestReport
  by_cases h : shouldSaveToDb st.lastDbTime r.agentId r.timestamp <;> simp [h]

/-- C4: a report triggers a cold-store write exactly when no
last-persisted timestamp is recorded for the agent or the elapsed time
since it is at least the ten minute window, while the hot cache is
refreshed unconditionally; and in the concrete scenario of reports at
t = 0, 4, 9 and 11 minutes only the first and the last produce a
cold-store record while all four update the hot host entry. -/
theorem report_throttle_correct (nodeId : Nat) (r : ReportData) (st : TelemetryState) :
    ((processReport nodeId r st).coldStore = st.coldStore ++
        (if shouldSaveToDb st.lastDbTime r.agentId r.timestamp
          then [mkColdRecord nodeId r] else [])) ∧
    (shouldSaveToDb st.lastDbTime r.agentId r.timestamp = true ↔
      (jsMapGet st.lastDbTime r.agentId = none ∨
        ∃ last, jsMapGet st.lastDbTime r.agentId = some last ∧
          DB_SAVE_INTERVAL ≤ r.timestamp - last)) ∧
    ((processReport nodeId r st).hostLatest =
      jsMapSet st.hostLatest r.agentId (r.timestamp, r.host)) ∧
    (throttleS4.coldStore.map (fun c => c.timestamp) = [0, 660000] ∧
      jsMapGet throttleS1.hostLatest "A" = some (0, sampleHost) ∧
      jsMapGet throttleS2.hostLatest "A" = some (240000, sampleHost) ∧
      jsMapGet throttleS3.hostLatest "A" = some (540000, sampleHost) ∧
      jsMapGet throttleS4.hostLatest "A" = some (660000, sampleHost)) :=
  ⟨processReport_coldStore nodeId r st,
   shouldSaveToDb_iff st.lastDbTime r.agentId r.timestamp,
   processReport_hostLatest nodeId r st,
   by decide⟩

/-- Lookups of a key not written by any container of the list pass
through the container-save fold unchanged. -/
theorem jsMapGet_foldl_set_skip (agentId : String) (ts : Int) (cs : List ContainerData)
    (m : List ((String × String) × (Int × ContainerData))) (k : String × String)
    (h : ∀ c ∈ cs, (agentId, c.id) ≠ k) :
    jsMapGet (cs.foldl (fun m c => jsMapSet m (agentId, c.id) (ts, c)) m) k =
      jsMapGet m k := by
  induction cs generalizing m with
  | nil => rfl
  | cons c rest ih =>
    simp only [List.foldl_cons]
    rw [ih _ (fun c' hc => h c' (List.mem_cons_of_mem _ hc))]
    exact jsMapGet_set_ne _ _ _ _ (Ne.symm (h c (List.mem_cons_self _ _)))

/-- Reading the container snapshots back in id-list order recovers the
saved container list when the ids are pairwise distinct. -/
theorem containers_roundtrip (agentId : String) (ts : Int) (cs : List ContainerData)
    (m : List ((String × String) × (Int × ContainerData)))
    (hnd : (cs.map (fun c => c.id)).Nodup) :
    (cs.map (fun c => c.id)).filterMap
      (fun cid =>
        (jsMapGet (cs.foldl (fun m c => jsMapSet m (agentId, c.id) (ts, c)) m)
          (agentId, cid)).map (fun e => e.2)) = cs := by
  induction cs generalizing m with
  | nil => rfl
  | cons c rest ih =>
    have hnotin : c.id ∉ rest.map (fun c => c.id) := (List.nodup_cons.mp hnd).1
    have hskip : jsMapGet
        (rest.foldl (fun m c => jsMapSet m (agentId, c.id) (ts, c))
          (jsMapSet m (agentId, c.id) (ts, c))) (agentId, c.id) = some (ts, c) := by
      rw [jsMapGet_foldl_set_skip]
      · exact jsMapGet_set_self _ _ _
      · intro c' hc' heq
        exact hnotin (by
          have : c'.id = c.id := by
            have := congrArg Prod.snd heq
            exact this
          rw [this.symm] at hnotin
          exact absurd (List.mem_map_of_mem (fun c => c.id) hc') hnotin)
    simp only [List.map_cons, List.filterMap_cons, List.foldl_cons, hskip, Option.map_some]
    exact congrArg (fun l => c :: l) (ih (jsMapSet m (agentId, c.id) (ts, c))
      (List.nodup_cons.mp hnd).2)

/-- C10: saving a report whose containers have pairwise-distinct ids and
reading it back before any expiry returns the identical report: same
agent id, same timestamp, same host snapshot and the same container
snapshots. -/
theorem hot_cache_roundtrip (agentId : String) (r : ReportData) (st : TelemetryState)
    (h : (r.containers.map (fun c => c.id)).Nodup) :
    getLatestReport agentId (saveLatestReport agentId r st) =
      some { agentId := agentId, timestamp := r.timestamp, host := r.host,
             containers := r.containers } := by
  unfold getLatestReport saveLatestReport
  simp only [jsMapGet_set_self, Option.getD_some]
  rw [containers_roundtrip agentId r.timestamp r.containers st.containerLatest h]

/-- C10 witness: round-trip of a concrete report with two containers of
distinct ids through an empty cache. -/
theorem hot_cache_roundtrip_witness :
    getLatestReport "B" (saveLatestReport "B" roundtripReport emptyTelemetry) =
      some { agentId := "B", timestamp := 5000, host := sampleHost,
             containers := [containerA, containerB] } :=
  hot_cache_roundtrip "B" roundtripReport emptyTelemetry (by decide)

/-! ### Reconciliation lemmas -/

/-- find? over an id-preserving row map commutes with the map. -/
theorem find?_map_id_pres (l : List InstanceRec) (q : Nat) (g : InstanceRec → InstanceRec)
    (hg : ∀ e, (g e).id = e.id) :
    (l.map g).find? (fun e => e.id == q) = (l.find? (fun e => e.id == q)).map g := by
  induction l with
  | nil => rfl
  | cons e rest ih =>
    simp only [List.map_cons, List.find?_cons]
    have hq : ((g e).id == q) = (e.id == q) := by rw [hg]
    rw [hq]
    cases hei : (e.id == q) with
    | true => simp
    | false => simp [ih]

/-- A row update targeting a different id does not change the looked-up row. -/
theorem find?_updInst_ne (insts : List InstanceRec) (i j : Nat)
    (f : InstanceRec → InstanceRec) (hf : ∀ e, (f e).id = e.id) (h : j ≠ i) :
    (updInst insts j f).find? (fun e => e.id == i) = insts.find? (fun e => e.id == i) := by
  unfold updInst
  rw [find?_map_id_pres insts i _ (fun e => by by_cases he : e.id == j <;> simp [he, hf])]
  cases hfind : insts.find? (fun e => e.id == i) with
  | none => rfl
  | some e =>
    have : e.id = i := by
      have := List.find?_some hfind
      exact eq_of_beq this
    simp [this, h, Ne.symm h]

/-- A row update targeting the looked-up id maps the looked-up row. -/
theorem find?_updInst_self (insts : List InstanceRec) (i : Nat)
    (f : InstanceRec → InstanceRec) (hf : ∀ e, (f e).id = e.id) :
    (updInst insts i f).find? (fun e => e.id == i) =
      (insts.find? (fun e => e.id == i)).map f := by
  unfold updInst
  rw [find?_map_id_pres insts i _ (fun e => by by_cases he : e.id == i <;> simp [he, hf])]
  cases hfind : insts.find? (fun e => e.id == i) with
  | none => rfl
  | some e =>
    have : e.id = i := by
      have := List.find?_some hfind
      exact eq_of_beq this
    simp [this]

/-- The instance table produced by the creation trigger is either
unchanged or a single-row update at the triggered id by an id-preserving
function whose result status is determined by the command outcome. -/
theorem trigger_instances_shape (o : Nat → CreateOutcome) (n j : Nat) (db : ReconDb) :
    (triggerContainerCreationForInstance o n j db).1.instances = db.instances ∨
    ∃ f : InstanceRec → InstanceRec,
      (triggerContainerCreationForInstance o n j db).1.instances = updInst db.instances j f ∧
      (∀ e, (f e).id = e.id) := by
  unfold triggerContainerCreationForInstance
  cases db.instances.find? (fun e => e.id == j) with
  | none => exact Or.inl rfl
  | some inst =>
    cases o j with
    | response s c m =>
      cases s with
      | true =>
        cases c with
        | none => exact Or.inr ⟨_, rfl, fun e => rfl⟩
        | some cid => exact Or.inr ⟨_, rfl, fun e => rfl⟩
      | false => exact Or.inr ⟨_, rfl, fun e => rfl⟩
    | connectionLost => exact Or.inr ⟨_, rfl, fun e => rfl⟩
    | timedOut => exact Or.inr ⟨_, rfl, fun e => rfl⟩

/-- When the triggered instance row exists, the trigger rewrites exactly
that row and its new status is resultStatus of the command outcome. -/
theorem trigger_instances_self (o : Nat → CreateOutcome) (n j : Nat) (db : ReconDb)
    (inst : InstanceRec) (hfind : db.instances.find? (fun e => e.id == j) = some inst) :
    ∃ f : InstanceRec → InstanceRec,
      (triggerContainerCreationForInstance o n j db).1.instances = updInst db.instances j f ∧
      (∀ e, (f e).id = e.id) ∧ (∀ e, (f e).status = resultStatus (o j)) := by
  unfold triggerContainerCreationForInstance
  rw [hfind]
  cases ho : o j with
  | response s c m =>
    cases s with
    | true =>
      cases c with
      | none => exact ⟨_, rfl, fun e => rfl, fun e => rfl⟩
      | some cid => exact ⟨_, rfl, fun e => rfl, fun e => rfl⟩
    | false => exact ⟨_, rfl, fun e => rfl, fun e => rfl⟩
  | connectionLost => exact ⟨_, rfl, fun e => rfl, fun e => rfl⟩
  | timedOut => exact ⟨_, rfl, fun e => rfl, fun e => rfl⟩

/-- The creation trigger issues one create command for its own instance,
possibly followed by one forward command, and nothing when the row is
missing. -/
theorem trigger_cmds_shape (o : Nat → CreateOutcome) (n j : Nat) (db : ReconDb)
    (inst : InstanceRec) (hfind : db.instances.find? (fun e => e.id == j) = some inst) :
    (triggerContainerCreationForInstance o n j db).2 = [IssuedCmd.createContainer j] ∨
    ∃ p, (triggerContainerCreationForInstance o n j db).2 = [IssuedCmd.createContainer j, p] ∧
      p.isForward = true := by
  unfold triggerContainerCreationForInstance
  rw [hfind]
  cases ho : o j with
  | response s c m =>
    cases s with
    | true =>
      cases c with
      | none => exact Or.inl rfl
      | some cid => exact Or.inr ⟨_, rfl, rfl⟩
    | false => exact Or.inl rfl
  | connectionLost => exact Or.inl rfl
  | timedOut => exact Or.inl rfl

/-- The creation trigger issues no command when the instance row is gone. -/
theorem trigger_cmds_none (o : Nat → CreateOutcome) (n j : Nat) (db : ReconDb)
    (hfind : db.instances.find? (fun e => e.id == j) = none) :
    (triggerContainerCreationForInstance o n j db).2 = [] := by
  unfold triggerContainerCreationForInstance
  rw [hfind]

/-- A forward command never equals a create command. -/
theorem isForward_beq_create_false (p : IssuedCmd) (i : Nat) (hp : p.isForward = true) :
    (p == IssuedCmd.createContainer i) = false := by
  cases p with
  | createContainer k => simp [IssuedCmd.isForward] at hp
  | portForward a b c d e => simp

/-- The creation trigger for one instance does not change the status of
rows with a different id. -/
theorem instStatus_trigger_ne (o : Nat → CreateOutcome) (n j i : Nat) (db : ReconDb)
    (h : j ≠ i) :
    instStatus (triggerContainerCreationForInstance o n j db).1 i = instStatus db i := by
  rcases trigger_instances_shape o n j db with heq | ⟨f, heq, hf⟩
  · unfold instStatus
    rw [heq]
  · unfold instStatus
    rw [heq, find?_updInst_ne db.instances i j f hf h]

/-- The creation trigger sets the status of its own instance row to the
status determined by the command outcome. -/
theorem instStatus_trigger_self (o : Nat → CreateOutcome) (n i : Nat) (db : ReconDb)
    (inst : InstanceRec) (hfind : db.instances.find? (fun e => e.id == i) = some inst) :
    instStatus (triggerContainerCreationForInstance o n i db).1 i =
      some (resultStatus (o i)) := by
  obtain ⟨f, heq, hid, hstat⟩ := trigger_instances_self o n i db inst hfind
  unfold instStatus
  rw [heq, find?_updInst_self db.instances i f hid, hfind]
  simp [hstat inst]

/-- The creation trigger for one instance issues exactly one create
command for that instance. -/
theorem count_trigger_self (o : Nat → CreateOutcome) (n i : Nat) (db : ReconDb)
    (inst : InstanceRec) (hfind : db.instances.find? (fun e => e.id == i) = some inst) :
    (triggerContainerCreationForInstance o n i db).2.count (IssuedCmd.createContainer i)
      = 1 := by
  rcases trigger_cmds_shape o n i db inst hfind with hcase | ⟨p, hcase, hp⟩
  · rw [hcase]
    simp [List.count_cons, List.count_nil]
  · rw [hcase]
    simp [List.count_cons, List.count_nil, isForward_beq_create_false p i hp]

/-- The creation trigger for one instance issues no create command for a
different instance. -/
theorem count_trigger_ne (o : Nat → CreateOutcome) (n j i : Nat) (db : ReconDb)
    (h : j ≠ i) :
    (triggerContainerCreationForInstance o n j db).2.count (IssuedCmd.createContainer i)
      = 0 := by
  cases hfind : db.instances.find? (fun e => e.id == j) with
  | none =>
    rw [trigger_cmds_none o n j db hfind]
    rfl
  | some inst =>
    rcases trigger_cmds_shape o n j db inst hfind with hcase | ⟨p, hcase, hp⟩
    · rw [hcase]
      simp [List.count_cons, List.count_nil, h]
    · rw [hcase]
      simp [List.count_cons, List.count_nil, h, isForward_beq_create_false p i hp]

/-- Folding the retry step over instances whose ids all differ from i
changes neither the status of row i nor the number of create commands
issued for i. -/
theorem retry_fold_frame (o : Nat → CreateOutcome) (n : Nat) (l : List InstanceRec)
    (acc : ReconDb × List IssuedCmd) (i : Nat) (h : ∀ p ∈ l, p.id ≠ i) :
    instStatus (l.foldl (retryStep o n) acc).1 i = instStatus acc.1 i ∧
    (l.foldl (retryStep o n) acc).2.count (IssuedCmd.createContainer i) =
      acc.2.count (IssuedCmd.createContainer i) := by
  induction l generalizing acc with
  | nil => exact ⟨rfl, rfl⟩
  | cons p rest ih =>
    simp only [List.foldl_cons]
    obtain ⟨ih1, ih2⟩ := ih (retryStep o n acc p)
      (fun q hq => h q (List.mem_cons_of_mem _ hq))
    have hp : p.id ≠ i := h p (List.mem_cons_self _ _)
    constructor
    · rw [ih1]
      exact instStatus_trigger_ne o n p.id i acc.1 hp
    · rw [ih2]
      show (acc.2 ++ (triggerContainerCreationForInstance o n p.id acc.1).2).count
          (IssuedCmd.createContainer i) = acc.2.count (IssuedCmd.createContainer i)
      rw [List.count_append, count_trigger_ne o n p.id i acc.1 hp]
      omega

/-- Folding the retry step over a list with pairwise-distinct ids that
contains a present instance runs its trigger exactly once: afterwards the
status of the row equals resultStatus of its own outcome and exactly one
more create command for it has been issued. -/
theorem retry_fold_main (o : Nat → CreateOutcome) (n : Nat) (l : List InstanceRec)
    (acc : ReconDb × List IssuedCmd) (inst : InstanceRec) (hmem : inst ∈ l)
    (hnd : (l.map (fun e => e.id)).Nodup)
    (hpres : (instStatus acc.1 inst.id).isSome = true) :
    instStatus (l.foldl (retryStep o n) acc).1 inst.id = some (resultStatus (o inst.id)) ∧
    (l.foldl (retryStep o n) acc).2.count (IssuedCmd.createContainer inst.id) =
      acc.2.count (IssuedCmd.createContainer inst.id) + 1 := by
  induction l generalizing acc with
  | nil => cases hmem
  | cons p rest ih =>
    have hnd' := List.nodup_cons.mp hnd
    rcases List.mem_cons.mp hmem with heq | hmem'
    · subst heq
      simp only [List.foldl_cons]
      have hfound : ∃ e, acc.1.instances.find? (fun x => x.id == inst.id) = some e := by
        unfold instStatus at hpres
        cases hacc : acc.1.instances.find? (fun x => x.id == inst.id) with
        | none =>
          rw [hacc] at hpres
          simp at hpres
        | some e => exact ⟨e, rfl⟩
      obtain ⟨e, he⟩ := hfound
      have hrest : ∀ q ∈ rest, q.id ≠ inst.id := by
        intro q hq hcontra
        apply hnd'.1
        rw [List.mem_map]
        exact ⟨q, hq, hcontra⟩
      obtain ⟨f1, f2⟩ := retry_fold_frame o n rest (retryStep o n acc inst) inst.id hrest
      constructor
      · rw [f1]
        exact instStatus_trigger_self o n inst.id acc.1 e he
      · rw [f2]
        show (acc.2 ++ (triggerContainerCreationForInstance o n inst.id acc.1).2).count
            (IssuedCmd.createContainer inst.id) =
          acc.2.count (IssuedCmd.createContainer inst.id) + 1
        rw [List.count_append, count_trigger_self o n inst.id acc.1 e he]
    · have hp : p.id ≠ inst.id := by
        intro hcontra
        apply hnd'.1
        rw [List.mem_map]
        exact ⟨inst, hmem', hcontra.symm⟩
      simp only [List.foldl_cons]
      have hpres' : (instStatus (retryStep o n acc p).1 inst.id).isSome = true := by
        show (instStatus (triggerContainerCreationForInstance o n p.id acc.1).1
          inst.id).isSome = true
        rw [instStatus_trigger_ne o n p.id inst.id acc.1 hp]
        exact hpres
      obtain ⟨g1, g2⟩ := ih (retryStep o n acc p) hmem' hnd'.2 hpres'
      refine ⟨g1, ?_⟩
      rw [g2]
      show (acc.2 ++ (triggerContainerCreationForInstance o n p.id acc.1).2).count
          (IssuedCmd.createContainer inst.id) + 1 =
        acc.2.count (IssuedCmd.createContainer inst.id) + 1
      rw [List.count_append, count_trigger_ne o n p.id inst.id acc.1 hp]

/-! ### C2 and C3 theorems -/

/-- C2 (amended): for every workload of the reconnecting node in CREATING
or ERROR status, retryPendingInstances issues exactly one re-creation
command for it with no retry in the same session; a success response
carrying the created container id moves the workload to RUNNING (status
1); a connection-lost outcome makes setInstanceError set status 4 (ERROR),
which leaves a workload already in ERROR unchanged but moves a CREATING
workload to ERROR. -/
theorem reconciliation_retry_converges (o : Nat → CreateOutcome) (nodeId : Nat)
    (db : ReconDb) (hnd : (db.instances.map (fun e => e.id)).Nodup)
    (inst : InstanceRec) (hmem : inst ∈ db.instances)
    (hnode : inst.nodeId = nodeId) (hstat : inst.status = 0 ∨ inst.status = 4) :
    (retryPendingInstances o nodeId db).2.count (IssuedCmd.createContainer inst.id) = 1 ∧
    (∀ cid m, o inst.id = CreateOutcome.response true (some cid) m →
      instStatus (retryPendingInstances o nodeId db).1 inst.id = some 1) ∧
    (o inst.id = CreateOutcome.connectionLost →
      instStatus (retryPendingInstances o nodeId db).1 inst.id = some 4) := by
  have hpmem : inst ∈ db.instances.filter
      (fun i => i.nodeId == nodeId && (i.status == 0 || i.status == 4)) := by
    rw [List.mem_filter]
    refine ⟨hmem, ?_⟩
    rcases hstat with h0 | h0 <;> simp [hnode, h0]
  have hpnd : ((db.instances.filter
      (fun i => i.nodeId == nodeId && (i.status == 0 || i.status == 4))).map
        (fun e => e.id)).Nodup :=
    List.Nodup.sublist (List.Sublist.map _ (List.filter_sublist _)) hnd
  have hpres : (instStatus (db, ([] : List IssuedCmd)).1 inst.id).isSome = true := by
    unfold instStatus
    have hsome : (db.instances.find? (fun e => e.id == inst.id)).isSome :=
      List.find?_isSome.mpr ⟨inst, hmem, by simp⟩
    cases hfind : db.instances.find? (fun e => e.id == inst.id) with
    | none =>
      rw [hfind] at hsome
      simp at hsome
    | some e => rfl
  obtain ⟨h1, h2⟩ := retry_fold_main o nodeId
    (db.instances.filter (fun i => i.nodeId == nodeId && (i.status == 0 || i.status == 4)))
    (db, []) inst hpmem hpnd hpres
  unfold retryPendingInstances
  refine ⟨?_, ?_, ?_⟩
  · rw [h2]
    rfl
  · intro cid m ho
    rw [h1, ho]
    rfl
  · intro ho
    rw [h1, ho]
    rfl

/-- C2 counterexample: a workload in CREATING status (0) whose
re-creation command resolves as connection-lost does not keep its status:
the code sets it to ERROR (4), refuting the claim that the status is left
unchanged. -/
theorem reconciliation_connlost_changes_status :
    instStatus creatingDb 1 = some 0 ∧
    instStatus (retryPendingInstances allConnLost 1 creatingDb).1 1 = some 4 := by
  decide

/-- C2 witness: the amended reconciliation property evaluated on a
database with one CREATING workload whose create command succeeds. -/
theorem reconciliation_retry_converges_witness :
    (retryPendingInstances allSucceed 1 creatingDb).2.count (IssuedCmd.createContainer 1) = 1 ∧
    instStatus (retryPendingInstances allSucceed 1 creatingDb).1 1 = some 1 := by
  have h := reconciliation_retry_converges allSucceed 1 creatingDb (by decide)
    creatingInst (by decide) (by decide) (Or.inl (by decide))
  exact ⟨h.1, h.2.1 "cX" none rfl⟩

/-- C3 evaluation: on reconnect of node 1, which owns one RUNNING
workload with one persisted network-forward rule, the open handler
(onNodeOpen, which only runs retryPendingInstances) issues no command at
all, in particular no forward command re-asserting the persisted rule. -/
theorem reconnect_reasserts_no_forward_rules :
    runningDbWithRule.natRules.length = 1 ∧
    (onNodeOpen allConnLost 1 runningDbWithRule).2 = [] ∧
    ((onNodeOpen allConnLost 1 runningDbWithRule).2.filter
      (fun c => c.isForward)).length = 0 := by
  decide
